import Mathlib

/-!
Shallow embedding of `src/plugins/image_album/image_album.py` (InkyPi image
album plugin).  The module has two classes:

* `ImmichProvider` — resolves an album name to an id (`get_album_id`),
  paginates through the assets of the album (`get_asset_ids`), filters them by
  EXIF orientation (`get_aligned_images`) and downloads one image in a
  retry loop (`get_image`).
* `ImageAlbum` — the host-facing plugin (`generate_image`): dispatches on
  the `albumProvider` setting, calls the provider, and optionally pads the
  returned image.

Network and image decoding are modelled as oracles (total functions passed
as parameters): `service` answers the paginated metadata POST, `download`
gives the pixel dimensions of the decoded image for an asset id, `picks`
resolves each call of Python `random.choice` to an index.  Loops whose
termination depends on the oracles take a `fuel` argument; running out of
fuel returns `none`, modelling a non-terminating run, and is distinct from
every behaviour of the real code on terminating runs.

Python exceptions are modelled with `Except PyError`.
-/

namespace ImageAlbumModel

/-- Python exceptions that the embedded code can raise.  `indexError`
models `IndexError` (raised by `[..][0]` on an empty list and by
`random.choice` on an empty sequence), `attributeError` models the
`AttributeError` raised inside `PIL.ImageColor.getrgb` when its argument
is not a string, and `runtimeError` models `RuntimeError(msg)`. -/
inductive PyError where
  | indexError
  | attributeError
  | runtimeError (msg : String)
deriving DecidableEq, Repr

/-- One entry of the JSON list returned by `GET /api/albums`: the fields
the code reads are `albumName` and `id`. -/
structure Album where
  albumName : String
  id : String
deriving DecidableEq, Repr

/-- `exifInfo` of an asset record: the fields the code reads are
`exifImageWidth` and `exifImageHeight`. -/
structure ExifInfo where
  exifImageWidth : Nat
  exifImageHeight : Nat
deriving DecidableEq, Repr

/-- One asset record from `assets.items` of the metadata search response:
the code reads `id` and `exifInfo`. -/
structure Asset where
  id : String
  exifInfo : ExifInfo
deriving DecidableEq, Repr

/-- A decoded PIL image; the code only inspects `width` and `height`. -/
structure PILImage where
  width : Nat
  height : Nat
deriving DecidableEq, Repr

/-- `ImmichProvider.get_album_id`, lines 25-34.  The Python code runs
`album = [a for a in albums if a["albumName"] == album][0]`: the filter
uses the parameter `album`, and indexing `[0]` raises `IndexError` when no
album matches.  The subsequent `if album is None` check (lines 31-32) is
unreachable: after a successful `[0]` the variable holds a dict and is
never `None`, so the embedding has no `RuntimeError` branch. -/
def get_album_id (albums : List Album) (album : String) : Except PyError String :=
  match albums.filter (fun a => a.albumName == album) with
  | [] => .error .indexError
  | a :: _ => .ok a.id

/-- The filter condition of `ImmichProvider.get_aligned_images`, line 66:
`(orientation == "horizontal" and w > h) or (orientation == "vertical" and w < h)`
with `w`/`h` the EXIF dimensions. -/
def alignedExif (orientation : String) (asset : Asset) : Bool :=
  (orientation == ("horizontal") &&
    decide (asset.exifInfo.exifImageWidth > asset.exifInfo.exifImageHeight)) ||
  (orientation == ("vertical") &&
    decide (asset.exifInfo.exifImageWidth < asset.exifInfo.exifImageHeight))

/-- `ImmichProvider.get_aligned_images`, lines 59-69: a for-loop that
appends exactly the assets satisfying the line-66 condition, i.e. a
filter. -/
def get_aligned_images (assets : List Asset) (orientation : String) : List Asset :=
  assets.filter (alignedExif orientation)

/-- The JSON body of the `POST /api/search/metadata` request built on
lines 42-47 of `get_asset_ids`. -/
structure SearchBody where
  albumIds : List String
  size : Nat
  page : Nat
  withExif : Bool
deriving DecidableEq, Repr

/-- The request body for a given album id and page, lines 42-47:
`{"albumIds": [album_id], "size": 1000, "page": page, "withExif": True}`. -/
def mkSearchBody (album_id : String) (page : Nat) : SearchBody :=
  { albumIds := [album_id], size := 1000, page := page, withExif := true }

/-- The `while page_items:` loop of `ImmichProvider.get_asset_ids`,
lines 37-54, unrolled from the state where the next page to request is
`page`.  `page_items` starts as the non-empty sentinel `[1]`, so the loop
body always runs at least once; each iteration posts the body for `page`,
extends `all_items` with the returned items, increments `page`, and the
loop stops when the item list of a page is empty.  The embedding also records
the list of request bodies issued (`reqs`), which the Python code
determines but does not store; `none` models running out of fuel, i.e. a
run of the real loop that has not terminated within `fuel` iterations. -/
def get_asset_ids_loop (service : SearchBody → List Asset) (album_id : String) :
    Nat → Nat → List Asset → List SearchBody → Option (List Asset × List SearchBody)
  | 0, _, _, _ => none
  | fuel + 1, page, all_items, reqs =>
    let body := mkSearchBody album_id page
    let page_items := service body
    let all_items2 := all_items ++ page_items
    let reqs2 := reqs ++ [body]
    if page_items.isEmpty then some (all_items2, reqs2)
    else get_asset_ids_loop service album_id fuel (page + 1) all_items2 reqs2

/-- `ImmichProvider.get_asset_ids`, lines 36-57: paginate starting at
page 1, then filter by `get_aligned_images` and project the `id` field.
Returns the ids together with the request bodies the loop issued. -/
def get_asset_ids (service : SearchBody → List Asset) (album_id : String)
    (orientation : String) (fuel : Nat) : Option (List String × List SearchBody) :=
  match get_asset_ids_loop service album_id fuel 1 [] [] with
  | none => none
  | some (all_items, reqs) =>
      some ((get_aligned_images all_items orientation).map (fun asset => asset.id), reqs)

/-- `random.choice(asset_ids)` on line 84, for the call made at step
`step` of the loop.  The oracle `picks` fixes the randomness: the chosen
index is `picks step % ids.length`, so for a non-empty list every index
is reachable by some oracle and the choice is always a member of the
current list (as `random.choice` guarantees). -/
def pickChoice (picks : Nat → Nat) (step : Nat) (ids : List String)
    (h : ids ≠ []) : String :=
  ids.get ⟨picks step % ids.length, Nat.mod_lt _ (List.length_pos.mpr h)⟩

/-- The alignment test on line 92 of `get_image`, applied to the decoded
downloaded image:
`(orientation == "horizontal" and img.width > img.height) or
 (orientation == "vertical" and img.height > img.width)`. -/
def alignedDownload (orientation : String) (img : PILImage) : Bool :=
  (orientation == ("horizontal") && decide (img.width > img.height)) ||
  (orientation == ("vertical") && decide (img.height > img.width))

/-- The `while not aligned:` loop of `ImmichProvider.get_image`,
lines 81-101.  Each iteration picks `random.choice(asset_ids)` — an
`IndexError` when `asset_ids` is empty — downloads and decodes the image
(`download` oracle), and then: when `len(asset_ids) > 1`, accepts on the
line-92 alignment test and otherwise removes the picked id
(`asset_ids.remove`, i.e. erase the first occurrence) and loops; when at
most one id remains, accepts the download unconditionally.  Returns the
accepted asset id together with the number of downloads performed (which
the Python code determines but does not store); `none` models running out
of fuel. -/
def get_image_loop (download : String → PILImage) (orientation : String)
    (picks : Nat → Nat) :
    Nat → Nat → List String → Nat → Option (Except PyError (String × Nat))
  | 0, _, _, _ => none
  | fuel + 1, step, asset_ids, count =>
    if h : asset_ids = [] then some (.error .indexError)
    else
      let asset_id := pickChoice picks step asset_ids h
      let img := download asset_id
      if 1 < asset_ids.length then
        if alignedDownload orientation img then some (.ok (asset_id, count + 1))
        else
          get_image_loop download orientation picks fuel (step + 1)
            (asset_ids.erase asset_id) (count + 1)
      else some (.ok (asset_id, count + 1))

/-- The successive states of the line-83 loop: the pairs
(step, current candidate list) at each entry of the loop body, computed
by the same case split as `get_image_loop`. -/
def get_image_loop_states (download : String → PILImage) (orientation : String)
    (picks : Nat → Nat) : Nat → Nat → List String → List (Nat × List String)
  | 0, _, _ => []
  | fuel + 1, step, asset_ids =>
    if h : asset_ids = [] then [(step, asset_ids)]
    else
      let asset_id := pickChoice picks step asset_ids h
      let img := download asset_id
      if 1 < asset_ids.length then
        if alignedDownload orientation img then [(step, asset_ids)]
        else
          (step, asset_ids) ::
            get_image_loop_states download orientation picks fuel (step + 1)
              (asset_ids.erase asset_id)
      else [(step, asset_ids)]

/-- Result of `ImmichProvider.get_image`: either the `return None` of the
except-branch on line 79, or the image returned on line 101, identified by
the accepted asset id (line 89 rebinds `img` each iteration, so the value
returned is the download of the last picked id). -/
inductive GetImageResult where
  | none_result
  | image (assetId : String)
deriving DecidableEq, Repr

/-- `ImmichProvider.get_image`, lines 71-101.  The try-block (lines 72-79)
catches every exception from `get_album_id` / `get_asset_ids` and returns
`None`; the download loop runs outside the try-block, so its exceptions
(in particular the `IndexError` of `random.choice` on an empty candidate
list) propagate to the caller uncaught.  Transport errors of the oracles
are not modelled (the oracles are total).  `none` models running out of
fuel in either loop. -/
def get_image (albums : List Album) (service : SearchBody → List Asset)
    (download : String → PILImage) (picks : Nat → Nat) (fuel : Nat)
    (album : String) (orientation : String) :
    Option (Except PyError GetImageResult) :=
  match get_album_id albums album with
  | .error _ => some (.ok .none_result)
  | .ok album_id =>
    match get_asset_ids service album_id orientation fuel with
    | none => none
    | some (asset_ids, _) =>
      match get_image_loop download orientation picks fuel 0 asset_ids 0 with
      | none => none
      | some (.error e) => some (.error e)
      | some (.ok (asset_id, _)) => some (.ok (.image asset_id))

/-- The settings mapping passed to `ImageAlbum.generate_image`.  Every
value the code reads with `settings.get(...)` is a string when present, so
each field is an `Option String` (`none` models a missing key). -/
structure Settings where
  albumProvider : Option String
  url : Option String
  album : Option String
  padImage : Option String
  backgroundOption : Option String
  backgroundColor : Option String
deriving DecidableEq, Repr

/-- The device configuration object: `get_config("orientation")`,
`get_resolution()` (a (width, height) pair) and
`load_env_key("IMMICH_KEY")`. -/
structure DeviceConfig where
  orientation : String
  resolution : Nat × Nat
  immich_key : Option String
deriving DecidableEq, Repr

/-- Python truthiness of an optional string: `None` and the empty string
are falsy (`if not key`, `if not url`, `if not album`, `if not img`). -/
def truthyStr (s : Option String) : Bool :=
  match s with
  | none => false
  | some v => !(v == ("") )

/-- The observable side effects of `generate_image` other than its return
value: the end-to-end provider network interaction started on line 133,
and the `os.system("sudo shutdown now")` call on line 152. -/
inductive Effect where
  | providerCall (url : String) (album : String)
  | shutdownCmd
deriving DecidableEq, Repr

/-- The image value `generate_image` returns: the unmodified downloaded
image (line 154), the blur-padded composite (line 147), or the
solid-color pad (line 150) with the target canvas dimensions and the RGB
fill colour.  The pixel content of the two library compositing calls
(`pad_image_blur`, `ImageOps.pad`) is external to the repository and kept
symbolic. -/
inductive OutImage where
  | raw (assetId : String)
  | blurPadded (assetId : String) (dims : Nat × Nat)
  | solidPadded (assetId : String) (dims : Nat × Nat) (color : Nat × Nat × Nat)
deriving DecidableEq, Repr

/-- The Python value passed to `ImageColor.getcolor` on line 149:
`settings.get(backgroundColor) or (255, 255, 255)` (quotes around the key omitted here) is the setting
string when it is truthy and otherwise the literal 3-tuple. -/
inductive ColorArg where
  | pyStr (s : String)
  | pyTuple (r : Nat) (g : Nat) (b : Nat)
deriving DecidableEq, Repr

/-- `settings.get(backgroundColor) or (255, 255, 255)` (quotes around the key omitted here): `None` and the
empty string are falsy, so both yield the tuple. -/
def bgColorArg (backgroundColor : Option String) : ColorArg :=
  match backgroundColor with
  | none => .pyTuple 255 255 255
  | some s => if s == ("") then .pyTuple 255 255 255 else .pyStr s

/-- `PIL.ImageColor.getcolor(color, "RGB")`.  The Pillow function `getcolor` calls
`getrgb(color)`, whose first operation on the colour argument is
`color = color.lower()` (after a `len(color)` guard in recent versions),
documented and typed for `str` only; a tuple argument therefore raises
an `AttributeError` (tuple object has no attribute lower).  Parsing of
genuine colour strings is outside this repository and is delegated to the
`parseStr` oracle. -/
def ImageColor_getcolor (c : ColorArg)
    (parseStr : String → Except PyError (Nat × Nat × Nat)) :
    Except PyError (Nat × Nat × Nat) :=
  match c with
  | .pyTuple _ _ _ => .error .attributeError
  | .pyStr s => parseStr s

/-- `ImageAlbum.generate_image`, lines 114-154, returning the raised
exception or the returned image together with the ordered list of side
effects performed.  The `match` on `settings.get("albumProvider")`
(line 118) has a single case, `"Immich"`; any other value leaves `img`
bound to `None`, so the line-137 guard raises
`RuntimeError("Failed to load image, please check logs.")` without any
provider interaction.  In the `"Immich"` case the code requires a truthy
API key, URL and album name (raising the respective `RuntimeError`
otherwise), runs the provider end to end, raises the same generic
`RuntimeError` when the provider returned `None`, and then either pads
(when `padImage == "true"`: canvas = device resolution, swapped for
vertical orientation; blur variant when `backgroundOption == "blur"`,
otherwise `ImageOps.pad` with the line-149 colour) or — when padding is
not requested — runs `os.system("sudo shutdown now")` and returns the
unmodified image.  `none` models a provider run that ran out of fuel. -/
def generate_image (albums : List Album) (service : SearchBody → List Asset)
    (download : String → PILImage) (picks : Nat → Nat)
    (parseStr : String → Except PyError (Nat × Nat × Nat)) (fuel : Nat)
    (settings : Settings) (device_config : DeviceConfig) :
    Option (Except PyError OutImage × List Effect) :=
  let orientation := device_config.orientation
  if settings.albumProvider == some ("Immich") then
    if !truthyStr device_config.immich_key then
      some (.error (.runtimeError ("Immich API Key not configured.")), [])
    else if !truthyStr settings.url then
      some (.error (.runtimeError ("URL is required.")), [])
    else if !truthyStr settings.album then
      some (.error (.runtimeError ("Album is required.")), [])
    else
      let url := settings.url.getD ("")
      let album := settings.album.getD ("")
      match get_image albums service download picks fuel album orientation with
      | none => none
      | some (.error e) => some (.error e, [Effect.providerCall url album])
      | some (.ok .none_result) =>
        some (.error (.runtimeError ("Failed to load image, please check logs.")),
          [Effect.providerCall url album])
      | some (.ok (.image asset_id)) =>
        if settings.padImage == some ("true") then
          let dims :=
            if orientation == ("vertical") then
              (device_config.resolution.2, device_config.resolution.1)
            else device_config.resolution
          if settings.backgroundOption == some ("blur") then
            some (.ok (.blurPadded asset_id dims), [Effect.providerCall url album])
          else
            match ImageColor_getcolor (bgColorArg settings.backgroundColor) parseStr with
            | .error e => some (.error e, [Effect.providerCall url album])
            | .ok c =>
              some (.ok (.solidPadded asset_id dims c), [Effect.providerCall url album])
        else
          some (.ok (.raw asset_id),
            [Effect.providerCall url album, Effect.shutdownCmd])
  else
    some (.error (.runtimeError ("Failed to load image, please check logs.")), [])

/-! Concrete fixtures used by the closed witness theorems. -/

/-- A concrete album list with one album named `A`. -/
def albumsW : List Album := [⟨("A"), ("aid1")⟩]

/-- A concrete service: page 1 holds one vertical asset, later pages are
empty. -/
def serviceW (b : SearchBody) : List Asset :=
  if b.page == 1 then [⟨("v1"), ⟨100, 200⟩⟩] else []

/-- A concrete service whose every page is empty (an empty album). -/
def serviceEmptyW (_ : SearchBody) : List Asset := []

/-- A concrete download oracle: asset `a1` decodes to 200×100, everything
else to 100×200. -/
def downloadW (i : String) : PILImage :=
  if i == ("a1") then ⟨200, 100⟩ else ⟨100, 200⟩

/-- A concrete randomness oracle that always picks index 0. -/
def picksW (_ : Nat) : Nat := 0

/-- A concrete colour-string parsing oracle (never consulted by the
claims below). -/
def parseStrW (_ : String) : Except PyError (Nat × Nat × Nat) := .ok (0, 0, 0)

/-- A concrete asset list: one horizontal asset, one square asset. -/
def itemsW : List Asset := [⟨("a1"), ⟨200, 100⟩⟩, ⟨("sq"), ⟨5, 5⟩⟩]

/-- Claim C3: `get_aligned_images` retains an asset for orientation
`"horizontal"` iff its EXIF width exceeds its EXIF height, retains it for
`"vertical"` iff its EXIF width is below its EXIF height, and excludes
every square (width = height) asset under both orientations. -/
theorem c3_orientation_filter (assets : List Asset) (a : Asset) :
    (a ∈ get_aligned_images assets ("horizontal") ↔
      a ∈ assets ∧ a.exifInfo.exifImageWidth > a.exifInfo.exifImageHeight) ∧
    (a ∈ get_aligned_images assets ("vertical") ↔
      a ∈ assets ∧ a.exifInfo.exifImageWidth < a.exifInfo.exifImageHeight) ∧
    (a.exifInfo.exifImageWidth = a.exifInfo.exifImageHeight →
      a ∉ get_aligned_images assets ("horizontal") ∧
      a ∉ get_aligned_images assets ("vertical")) := by
  refine ⟨?_, ?_, ?_⟩
  · simp [get_aligned_images, List.mem_filter, alignedExif]
  · simp [get_aligned_images, List.mem_filter, alignedExif]
  · intro he
    constructor <;> simp [get_aligned_images, List.mem_filter, alignedExif, he]

/-- Witness for C3 at a concrete asset list: the square asset of `itemsW`
is excluded under both orientations. -/
theorem c3_orientation_filter_witness :
    (⟨("sq"), ⟨5, 5⟩⟩ : Asset) ∉ get_aligned_images itemsW ("horizontal") ∧
    (⟨("sq"), ⟨5, 5⟩⟩ : Asset) ∉ get_aligned_images itemsW ("vertical") :=
  (c3_orientation_filter itemsW ⟨("sq"), ⟨5, 5⟩⟩).2.2 rfl

/-- Claim C5 (code bug): on an album list with no exact name match,
`get_album_id` raises `IndexError` from the `[0]` index access — not a
NotFound-class error as the claim requires (the `if album is None` check
never runs); when matches exist it does return the id of the first exact
match. -/
theorem c5_album_lookup_behaviour :
    get_album_id [⟨("Other"), ("id1")⟩] ("Holiday") = .error .indexError ∧
    get_album_id
        [⟨("Other"), ("id1")⟩, ⟨("Holiday"), ("hid1")⟩, ⟨("Holiday"), ("hid2")⟩]
        ("Holiday") = .ok ("hid1") :=
  ⟨rfl, rfl⟩

/-- Claim C6 (code bug): with an album that resolves but yields an empty
candidate set, the download loop of `get_image` raises `IndexError` from
`random.choice` on the empty list, and the exception escapes `get_image`
uncaught (the try-block ends before the loop) — not the defined
NotFound/Empty-class error the claim requires. -/
theorem c6_empty_candidates_index_error :
    get_image albumsW serviceEmptyW downloadW picksW 2 ("A") ("horizontal") =
      some (.error .indexError) := rfl

/-- Claim C7 (code bug): with `padImage = "true"`, `backgroundOption`
unset and `backgroundColor` unset, `generate_image` on a 100×200 source
and a 300×300 canvas does not produce a white-padded image: line 149
evaluates `settings.get(backgroundColor) or (255, 255, 255)` to the
3-tuple and passes it to `PIL.ImageColor.getcolor`, which raises
`AttributeError` because it only accepts colour strings. -/
theorem c7_unset_background_color_attribute_error :
    generate_image albumsW serviceW downloadW picksW parseStrW 3
      ⟨some ("Immich"), some ("u"), some ("A"), some ("true"), none, none⟩
      ⟨("vertical"), (300, 300), some ("k")⟩ =
      some (.error .attributeError, [Effect.providerCall ("u") ("A")]) := rfl

/-- Claim C10: whenever the `albumProvider` setting is missing or differs
from `"Immich"`, `generate_image` performs no provider interaction (its
effect list is empty) and raises
`RuntimeError("Failed to load image, please check logs.")`, because the
match statement has no branch for other providers and the image stays
`None`. -/
theorem c10_unknown_provider_runtime_error (albums : List Album)
    (service : SearchBody → List Asset) (download : String → PILImage)
    (picks : Nat → Nat) (parseStr : String → Except PyError (Nat × Nat × Nat))
    (fuel : Nat) (settings : Settings) (device_config : DeviceConfig)
    (h : settings.albumProvider ≠ some ("Immich")) :
    generate_image albums service download picks parseStr fuel settings device_config =
      some (.error (.runtimeError ("Failed to load image, please check logs.")), []) := by
  have hb : (settings.albumProvider == some ("Immich")) = false := by
    simpa using h
  unfold generate_image
  simp [hb]

/-- Witness for C10 at a concrete settings mapping with
`albumProvider = "Other"`. -/
theorem c10_unknown_provider_runtime_error_witness :
    generate_image albumsW serviceW downloadW picksW parseStrW 3
      ⟨some ("Other"), some ("u"), some ("A"), none, none, none⟩
      ⟨("vertical"), (300, 300), some ("k")⟩ =
      some (.error (.runtimeError ("Failed to load image, please check logs.")), []) :=
  c10_unknown_provider_runtime_error albumsW serviceW downloadW picksW parseStrW 3
    ⟨some ("Other"), some ("u"), some ("A"), none, none, none⟩
    ⟨("vertical"), (300, 300), some ("k")⟩ (by simp)

/-- Claim C1: one step of the download loop.  With more than one
candidate, a download failing the measured-alignment test removes exactly
the picked asset id and the loop continues on the remaining list with the
next pick of the randomness oracle; a download passing the test is
accepted.  With exactly one candidate the download is accepted
unconditionally — no alignment test is consulted. -/
theorem c1_download_loop_step (download : String → PILImage) (orientation : String)
    (picks : Nat → Nat) (fuel step count : Nat) (asset_ids : List String)
    (h : asset_ids ≠ []) :
    (1 < asset_ids.length →
      (alignedDownload orientation (download (pickChoice picks step asset_ids h)) = false →
        get_image_loop download orientation picks (fuel + 1) step asset_ids count =
          get_image_loop download orientation picks fuel (step + 1)
            (asset_ids.erase (pickChoice picks step asset_ids h)) (count + 1)) ∧
      (alignedDownload orientation (download (pickChoice picks step asset_ids h)) = true →
        get_image_loop download orientation picks (fuel + 1) step asset_ids count =
          some (.ok (pickChoice picks step asset_ids h, count + 1)))) ∧
    (asset_ids.length = 1 →
      get_image_loop download orientation picks (fuel + 1) step asset_ids count =
        some (.ok (pickChoice picks step asset_ids h, count + 1))) := by
  refine ⟨fun hlen => ⟨fun hmis => ?_, fun hal => ?_⟩, fun hone => ?_⟩
  · simp [get_image_loop, h, hlen, hmis]
  · simp [get_image_loop, h, hlen, hal]
  · have hnot : ¬ 1 < asset_ids.length := by omega
    simp [get_image_loop, h, hnot]

/-- Witness for C1: on the two-element candidate list `["a2", "a1"]` with
the always-zero randomness oracle and orientation `"horizontal"`, the
downloaded `a2` (100×200) mismatches, so the loop continues on exactly
`["a1"]` with the incremented step and download count. -/
theorem c1_download_loop_step_witness :
    get_image_loop downloadW ("horizontal") picksW 5 0 [("a2"), ("a1")] 0 =
      get_image_loop downloadW ("horizontal") picksW 4 1 [("a1")] 1 :=
  ((c1_download_loop_step downloadW ("horizontal") picksW 4 0 0 [("a2"), ("a1")]
      (by simp)).1 (by simp) ).1 rfl

/-- Helper for C4 and C9: the download loop, given enough fuel, returns an
accepted id after at most one download per remaining candidate.  Stated
with an arbitrary starting count to make the induction go through. -/
theorem get_image_loop_total (download : String → PILImage) (orientation : String)
    (picks : Nat → Nat) :
    ∀ (fuel : Nat) (asset_ids : List String) (step count : Nat),
      asset_ids ≠ [] → asset_ids.length ≤ fuel →
      ∃ accepted n,
        get_image_loop download orientation picks fuel step asset_ids count =
          some (.ok (accepted, n)) ∧ n ≤ count + asset_ids.length := by
  intro fuel
  induction fuel with
  | zero =>
    intro asset_ids step count hne hlen
    exact absurd (List.length_pos.mpr hne) (by omega)
  | succ f ih =>
    intro asset_ids step count hne hlen
    rw [get_image_loop]
    rw [dif_neg hne]
    by_cases hgt : 1 < asset_ids.length
    · rw [if_pos hgt]
      by_cases hal :
          alignedDownload orientation (download (pickChoice picks step asset_ids hne)) = true
      · rw [if_pos hal]
        exact ⟨_, _, rfl, by omega⟩
      · rw [if_neg hal]
        have hmem : pickChoice picks step asset_ids hne ∈ asset_ids :=
          List.get_mem _ _ _
        have herase :
            (asset_ids.erase (pickChoice picks step asset_ids hne)).length =
              asset_ids.length - 1 :=
          List.length_erase_of_mem hmem
        have hne2 : asset_ids.erase (pickChoice picks step asset_ids hne) ≠ [] := by
          intro hc
          rw [hc] at herase
          simp at herase
          omega
        have hlen2 :
            (asset_ids.erase (pickChoice picks step asset_ids hne)).length ≤ f := by
          omega
        obtain ⟨accepted, n, heq, hb⟩ :=
          ih (asset_ids.erase (pickChoice picks step asset_ids hne)) (step + 1)
            (count + 1) hne2 hlen2
        exact ⟨accepted, n, heq, by omega⟩
    · rw [if_neg hgt]
      have hpos : 0 < asset_ids.length := List.length_pos.mpr hne
      exact ⟨_, _, rfl, by omega⟩

/-- Claim C4: for every non-empty candidate list of length `n`, the
download loop terminates within `n` downloads: given any fuel of at least
`n` iterations it returns an accepted id with a download count of at most
`n` (each mismatch strictly shrinks the list and a singleton is accepted
unconditionally). -/
theorem c4_download_loop_bounded (download : String → PILImage) (orientation : String)
    (picks : Nat → Nat) (fuel step : Nat) (asset_ids : List String)
    (hne : asset_ids ≠ []) (hfuel : asset_ids.length ≤ fuel) :
    ∃ accepted n,
      get_image_loop download orientation picks fuel step asset_ids 0 =
        some (.ok (accepted, n)) ∧ n ≤ asset_ids.length := by
  obtain ⟨accepted, n, heq, hb⟩ :=
    get_image_loop_total download orientation picks fuel asset_ids step 0 hne hfuel
  exact ⟨accepted, n, heq, by omega⟩

/-- Witness for C4 on the concrete two-element candidate list. -/
theorem c4_download_loop_bounded_witness :
    ∃ accepted n,
      get_image_loop downloadW ("horizontal") picksW 2 0 [("a2"), ("a1")] 0 =
        some (.ok (accepted, n)) ∧ n ≤ 2 :=
  c4_download_loop_bounded downloadW ("horizontal") picksW 2 0 [("a2"), ("a1")]
    (by simp) (by simp)

/-- Helper for C9: the candidate list only ever shrinks, so every element
of every visited loop state was already in any superset of the initial
candidate list. -/
theorem get_image_loop_states_subset (download : String → PILImage)
    (orientation : String) (picks : Nat → Nat) :
    ∀ (fuel step : Nat) (ids S : List String), (∀ x ∈ ids, x ∈ S) →
      ∀ p ∈ get_image_loop_states download orientation picks fuel step ids,
        ∀ x ∈ p.2, x ∈ S := by
  intro fuel
  induction fuel with
  | zero =>
    intro step ids S hsub p hp
    simp [get_image_loop_states] at hp
  | succ f ih =>
    intro step ids S hsub p hp
    rw [get_image_loop_states] at hp
    split at hp
    · simp at hp
      subst hp
      exact hsub
    · split at hp
      · dsimp only at hp
        split at hp
        · simp at hp
          subst hp
          exact hsub
        · simp only [List.mem_cons] at hp
          rcases hp with hp | hp
          · subst hp
            exact hsub
          · exact ih _ _ S
              (fun x hx => hsub x (List.mem_of_mem_erase hx)) p hp
      · simp at hp
        subst hp
        exact hsub

/-- Claim C9: when the loop starts from the output of the orientation
filter, every asset id in the candidate list of every visited loop state
is the id of an asset whose EXIF dimensions matched the requested
orientation; and whenever a visited state holds exactly one candidate,
the loop accepts that candidate after one download regardless of its
measured alignment. -/
theorem c9_candidate_invariant (all_items : List Asset) (orientation : String)
    (download : String → PILImage) (picks : Nat → Nat) (fuel step : Nat)
    (asset_ids : List String)
    (h0 : asset_ids = (get_aligned_images all_items orientation).map
      (fun asset => asset.id)) :
    ∀ p ∈ get_image_loop_states download orientation picks fuel step asset_ids,
      (∀ x ∈ p.2, ∃ a, a ∈ all_items ∧ alignedExif orientation a = true ∧ a.id = x) ∧
      (∀ x, p.2 = [x] → ∀ f2 count,
        get_image_loop download orientation picks (f2 + 1) p.1 p.2 count =
          some (.ok (x, count + 1))) := by
  intro p hp
  obtain ⟨st, ids2⟩ := p
  constructor
  · intro x hx
    have hxS : x ∈ asset_ids :=
      get_image_loop_states_subset download orientation picks fuel step asset_ids
        asset_ids (fun _ hmem => hmem) (st, ids2) hp x hx
    rw [h0] at hxS
    simp only [List.mem_map, get_aligned_images, List.mem_filter] at hxS
    obtain ⟨a, ⟨ha, hal⟩, hid⟩ := hxS
    exact ⟨a, ha, hal, hid⟩
  · intro x hx2 f2 count
    simp only at hx2
    subst hx2
    rw [get_image_loop]
    rw [dif_neg (by simp : ([x] : List String) ≠ [])]
    simp [pickChoice, Nat.mod_one]

/-- Witness for C9: from `itemsW` under orientation `"horizontal"` the
filter yields the single id `a1`; the first visited state is
`(0, ["a1"])`, each of its members is the id of a matching asset, and the
loop accepts `a1` at once. -/
theorem c9_candidate_invariant_witness :
    (∀ x ∈ [("a1")], ∃ a, a ∈ itemsW ∧ alignedExif ("horizontal") a = true ∧
      a.id = x) ∧
    (∀ x, [("a1")] = [x] → ∀ f2 count,
      get_image_loop downloadW ("horizontal") picksW (f2 + 1) 0 [("a1")] count =
        some (.ok (x, count + 1))) := by
  have h := c9_candidate_invariant itemsW ("horizontal") downloadW picksW 3 0
    [("a1")] rfl (0, [("a1")]) (by simp [get_image_loop_states, pickChoice,
      alignedDownload, downloadW])
  exact h

/-- Claim C8: when the `padImage` setting is not the string `"true"` and
the provider returned an image, `generate_image` issues the privileged OS
shutdown command (`os.system("sudo shutdown now")`) after the provider
interaction and returns the unmodified downloaded image. -/
theorem c8_no_padding_issues_shutdown (albums : List Album)
    (service : SearchBody → List Asset) (download : String → PILImage)
    (picks : Nat → Nat) (parseStr : String → Except PyError (Nat × Nat × Nat))
    (fuel : Nat) (settings : Settings) (device_config : DeviceConfig)
    (u a asset_id : String)
    (hprov : settings.albumProvider = some ("Immich"))
    (hkey : truthyStr device_config.immich_key = true)
    (hu : settings.url = some u) (hut : truthyStr (some u) = true)
    (ha : settings.album = some a) (hat : truthyStr (some a) = true)
    (himg : get_image albums service download picks fuel a device_config.orientation =
      some (.ok (.image asset_id)))
    (hpad : settings.padImage ≠ some ("true")) :
    generate_image albums service download picks parseStr fuel settings device_config =
      some (.ok (.raw asset_id),
        [Effect.providerCall u a, Effect.shutdownCmd]) := by
  have hpadb : (settings.padImage == some ("true")) = false := by
    simpa using hpad
  simp [generate_image, hprov, hkey, hu, ha, hut, hat, himg, hpadb]

/-- Witness for C8: with padding not requested, the concrete run accepts
asset `v1` and the effect list ends with the shutdown command. -/
theorem c8_no_padding_issues_shutdown_witness :
    generate_image albumsW serviceW downloadW picksW parseStrW 3
      ⟨some ("Immich"), some ("u"), some ("A"), none, none, none⟩
      ⟨("vertical"), (300, 300), some ("k")⟩ =
      some (.ok (.raw ("v1")),
        [Effect.providerCall ("u") ("A"), Effect.shutdownCmd]) :=
  c8_no_padding_issues_shutdown albumsW serviceW downloadW picksW parseStrW 3
    ⟨some ("Immich"), some ("u"), some ("A"), none, none, none⟩
    ⟨("vertical"), (300, 300), some ("k")⟩ ("u") ("A") ("v1")
    rfl rfl rfl rfl rfl rfl rfl (by simp)

/-- Helper for C2: running the pagination loop from page `page`, when the
next `k` pages are non-empty and page `page + k` is empty, appends the
items of pages `page .. page + k` in order to the accumulator, records
exactly the `k + 1` request bodies for those pages, and stops. -/
theorem get_asset_ids_loop_pages (service : SearchBody → List Asset)
    (album_id : String) :
    ∀ (k page fuel : Nat) (acc : List Asset) (reqs : List SearchBody),
      (∀ i, i < k → service (mkSearchBody album_id (page + i)) ≠ []) →
      service (mkSearchBody album_id (page + k)) = [] →
      k + 1 ≤ fuel →
      get_asset_ids_loop service album_id fuel page acc reqs =
        some (acc ++ ((List.range (k + 1)).map
            (fun i => service (mkSearchBody album_id (page + i)))).flatten,
          reqs ++ (List.range (k + 1)).map
            (fun i => mkSearchBody album_id (page + i))) := by
  intro k
  induction k with
  | zero =>
    intro page fuel acc reqs hk he hf
    match fuel, hf with
    | f + 1, _ =>
      have he0 : service (mkSearchBody album_id page) = [] := by
        simpa using he
      rw [get_asset_ids_loop]
      simp [he0, List.range_succ]
  | succ k ih =>
    intro page fuel acc reqs hk he hf
    match fuel, hf with
    | f + 1, hf =>
      have hne : service (mkSearchBody album_id page) ≠ [] := by
        simpa using hk 0 (by omega)
      have hkshift : ∀ i, i < k →
          service (mkSearchBody album_id ((page + 1) + i)) ≠ [] := by
        intro i hi
        have h2 := hk (i + 1) (by omega)
        have hi2 : page + (i + 1) = (page + 1) + i := by omega
        rwa [hi2] at h2
      have heshift : service (mkSearchBody album_id ((page + 1) + k)) = [] := by
        have hk2 : page + (k + 1) = (page + 1) + k := by omega
        rwa [hk2] at he
      have hmap : ∀ {α : Type} (g : Nat → α),
          (List.range (k + 1 + 1)).map (fun i => g (page + i)) =
            g page :: (List.range (k + 1)).map (fun i => g ((page + 1) + i)) := by
        intro α g
        rw [List.range_succ_eq_map, List.map_cons, List.map_map]
        have hcomp : (fun i => g (page + i)) ∘ Nat.succ =
            fun i => g ((page + 1) + i) := by
          funext i
          simp only [Function.comp]
          congr 1
          omega
        rw [hcomp, Nat.add_zero]
      rw [get_asset_ids_loop]
      rw [if_neg (by simpa [List.isEmpty_iff] using hne)]
      rw [ih (page + 1) f (acc ++ service (mkSearchBody album_id page))
        (reqs ++ [mkSearchBody album_id page]) hkshift heshift (by omega)]
      rw [hmap (fun p => service (mkSearchBody album_id p)),
        hmap (fun p => mkSearchBody album_id p)]
      simp [List.append_assoc]

/-- Claim C2: the pagination loop of `get_asset_ids` posts metadata
requests with body `{albumIds: [album_id], size: 1000, page: p, withExif:
true}` for pages `p = 1, 2, ...`; for a service yielding `k` non-empty
pages followed by an empty page it accumulates the concatenation of the
items of the `k` pages in order, issues exactly the `k + 1` requests for
pages `1 .. k + 1`, and stops at the first empty page. -/
theorem c2_pagination (service : SearchBody → List Asset) (album_id : String)
    (k fuel : Nat)
    (hk : ∀ i, i < k → service (mkSearchBody album_id (1 + i)) ≠ [])
    (he : service (mkSearchBody album_id (1 + k)) = [])
    (hf : k + 1 ≤ fuel) :
    get_asset_ids_loop service album_id fuel 1 [] [] =
      some (((List.range k).map
          (fun i => service (mkSearchBody album_id (1 + i)))).flatten,
        (List.range (k + 1)).map (fun i => mkSearchBody album_id (1 + i))) ∧
    ((List.range (k + 1)).map (fun i => mkSearchBody album_id (1 + i))).length =
      k + 1 := by
  constructor
  · rw [get_asset_ids_loop_pages service album_id k 1 fuel [] [] hk he hf]
    rw [List.range_succ]
    simp [he]
  · simp

/-- Witness for C2 on `serviceW` (one non-empty page, then an empty
page): the accumulated items are the page-1 items and the two request
bodies are for pages 1 and 2. -/
theorem c2_pagination_witness :
    get_asset_ids_loop serviceW ("aid1") 3 1 [] [] =
      some (((List.range 1).map
          (fun i => serviceW (mkSearchBody ("aid1") (1 + i)))).flatten,
        (List.range 2).map (fun i => mkSearchBody ("aid1") (1 + i))) ∧
    ((List.range 2).map (fun i => mkSearchBody ("aid1") (1 + i))).length = 2 :=
  c2_pagination serviceW ("aid1") 1 3
    (by
      intro i hi
      interval_cases i
      simp [serviceW, mkSearchBody])
    (by simp [serviceW, mkSearchBody]) (by omega)

end ImageAlbumModel
